import Mathlib

/-!
Verification of the DigiCC camera-control facade (src/core.py).

Python strings are modelled as `List Char`; the relevant `str` methods
(`in`, `split(sep)[1]`, `strip(chars)`, `replace`, `split(',')`) are embedded
below with Python's semantics.  A raised Python exception is modelled by the
`Except.error` constructor carrying the exception's name.
-/

namespace DigiCC

/-- Python `s.split(sep)`: the remainder of `s` after the first (leftmost)
occurrence of the non-empty separator `sep`, or `none` when `sep` does not
occur in `s`.  (For an empty separator Python raises; the markers used by the
code are all non-empty, and we return the whole string in that case.) -/
def afterFirst (sep : List Char) : List Char → Option (List Char)
  | [] => if sep.isEmpty then some [] else none
  | c :: cs =>
    if sep.isPrefixOf (c :: cs) then some (List.drop sep.length (c :: cs))
    else afterFirst sep cs

/-- The prefix of `s` before the first occurrence of `sep` (all of `s` when
`sep` does not occur). -/
def upToFirst (sep : List Char) : List Char → List Char
  | [] => []
  | c :: cs => if sep.isPrefixOf (c :: cs) then [] else c :: upToFirst sep cs

/-- Python `sep in s` for the non-empty markers used by the code. -/
def occursIn (sep s : List Char) : Bool := (afterFirst sep s).isSome

/-- Python `s.split(sep)[1]`: the segment between the first occurrence of
`sep` and the next non-overlapping occurrence (or the end of `s`); `none`
models the `IndexError` raised when `sep` does not occur in `s`. -/
def splitIndex1 (sep s : List Char) : Option (List Char) :=
  (afterFirst sep s).map (upToFirst sep)

/-- Python `s.strip(chars)`: remove from both ends every character that is a
member of `chars`. -/
def stripChars (chars : List Char) (s : List Char) : List Char :=
  ((s.dropWhile (chars.contains ·)).reverse.dropWhile (chars.contains ·)).reverse

/-- Python `s.replace(c, '')` for a one-character pattern. -/
def removeChar (c : Char) (s : List Char) : List Char := s.filter (· ≠ c)

/-- Python `s.replace(old, new)` for one-character pattern and replacement. -/
def replaceChar (old new : Char) (s : List Char) : List Char :=
  s.map (fun c => if c = old then new else c)

/-- Python `s.split(c)` for a one-character separator. -/
def splitChar (c : Char) : List Char → List (List Char)
  | [] => [[]]
  | x :: xs =>
    if x = c then [] :: splitChar c xs
    else
      match splitChar c xs with
      | [] => [[x]]
      | h :: t => (x :: h) :: t

/-- The literal token `'error'` searched for in raw responses. -/
def errMarker : List Char := "error".data

/-- The literal separator `'message:'`. -/
def msgMarker : List Char := "message:".data

/-- The literal separator `'response:'`. -/
def respMarker : List Char := "response:".data

/-- The strip set `'\r\n'`. -/
def crlfChars : List Char := "\r\n".data

/-- The strip set `'";\r\n'`. -/
def quoteSemiCrlf : List Char := "\";\r\n".data

/-- The strip set `'[];\r\n'`. -/
def bracketSemiCrlf : List Char := "[];\r\n".data

/-- Overlap-freedom: `sep` cannot be written as `sep.take k ++ sep.take (sep.length - k)` for
any non-trivial `k`: a first occurrence of `sep` in `a ++ sep ++ b` can then
never straddle the boundary of the explicit middle copy. -/
def selfOverlapFree (sep : List Char) : Prop :=
  ∀ k, k < sep.length → 0 < k → sep ≠ sep.take k ++ sep.take (sep.length - k)

/-!  Embeddings of the operations of `Camera` (src/core.py).  The raw response
text printed by the relay process is passed in as a parameter; the returned
pair carries the Python return value together with the list of messages logged
at ERROR level.  `Except.error` models a raised exception. -/

/-- Embedding of `Camera._get` (src/core.py lines 247-262), applied to the raw response
text of `execute`.  On an error-marked response it logs the stripped segment
after `message:` and returns `None`; otherwise it returns the segment after
`response:` stripped of `'";\r\n'` characters.  `split(...)[1]` raises
`IndexError` when the separator is absent. -/
def Camera._get (response : List Char) :
    Except String (Option (List Char) × List (List Char)) :=
  if occursIn errMarker response then
    match splitIndex1 msgMarker response with
    | none => .error "IndexError"
    | some seg =>
      let errorMessage := stripChars crlfChars seg
      .ok (none, ["Error executing get command: ".data ++ errorMessage])
  else
    match splitIndex1 respMarker response with
    | none => .error "IndexError"
    | some seg => .ok (some (stripChars quoteSemiCrlf seg), [])

/-- Embedding of `Camera._set` (src/core.py lines 264-279): same error/success extraction
as `_get`, with a `set`-specific log prefix. -/
def Camera._set (response : List Char) :
    Except String (Option (List Char) × List (List Char)) :=
  if occursIn errMarker response then
    match splitIndex1 msgMarker response with
    | none => .error "IndexError"
    | some seg =>
      let errorMessage := stripChars crlfChars seg
      .ok (none, ["Error executing set command: ".data ++ errorMessage])
  else
    match splitIndex1 respMarker response with
    | none => .error "IndexError"
    | some seg => .ok (some (stripChars quoteSemiCrlf seg), [])

/-- Embedding of `Camera._list` (src/core.py lines 281-296): on an error-marked response it
logs the message and returns the empty list; otherwise it strips `'[];\r\n'`
around the segment after `response:`, removes every `'"'` and splits on
commas. -/
def Camera._list (response : List Char) :
    Except String (List (List Char) × List (List Char)) :=
  if occursIn errMarker response then
    match splitIndex1 msgMarker response with
    | none => .error "IndexError"
    | some seg =>
      let errorMessage := stripChars crlfChars seg
      .ok ([], ["Error executing list command: ".data ++ errorMessage])
  else
    match splitIndex1 respMarker response with
    | none => .error "IndexError"
    | some seg =>
      .ok (splitChar ',' (removeChar '"' (stripChars bracketSemiCrlf seg)), [])

/-- Embedding of `Camera.startRecording` (src/core.py lines 357-377), applied to the raw
response text: extracts the segment after `response:` (no error-marker check),
strips `'";\r\n'`, and returns `True` with no log when the stripped body is
empty, `False` with the body logged otherwise. -/
def Camera.startRecording (response : List Char) :
    Except String (Bool × List (List Char)) :=
  match splitIndex1 respMarker response with
  | none => .error "IndexError"
  | some seg =>
    let responseText := stripChars quoteSemiCrlf seg
    if responseText = [] then .ok (true, [])
    else .ok (false, ["Error starting video recording: ".data ++ responseText])

/-- Embedding of `TransferMode` (src/core.py lines 14-17): exactly three variants. -/
inductive TransferMode where
  | PC
  | CAMERA
  | BOTH
deriving DecidableEq

/-- The `value` of each `TransferMode` member. -/
def TransferMode.value : TransferMode → List Char
  | .PC => "Save_to_PC_only".data
  | .CAMERA => "Save_to_camera_only".data
  | .BOTH => "Save_to_PC_and_camera".data

/-- Python `TransferMode(s)`: look a string up by value; `none` models the
`ValueError` raised on an unknown value. -/
def TransferMode.fromValue (s : List Char) : Option TransferMode :=
  if s = "Save_to_PC_only".data then some .PC
  else if s = "Save_to_camera_only".data then some .CAMERA
  else if s = "Save_to_PC_and_camera".data then some .BOTH
  else none

/-- The `Transfer` property getter (src/core.py lines 227-230), applied to the
raw response of `get transfer`: `mode = self._get("transfer")` followed by
`TransferMode(mode.replace(' ', '_'))`.  When `_get` returns `None`,
`None.replace` raises `AttributeError`; an unknown value raises
`ValueError`. -/
def Camera.Transfer (response : List Char) : Except String TransferMode :=
  match Camera._get response with
  | .error e => .error e
  | .ok (none, _) => .error "AttributeError"
  | .ok (some mode, _) =>
    match TransferMode.fromValue (replaceChar ' ' '_' mode) with
    | some m => .ok m
    | none => .error "ValueError"

/-- The `Transfer` property setter (src/core.py lines 232-234): the command
text sent to the relay, `set transfer {mode.value}`. -/
def Camera.TransferSet (mode : TransferMode) : List Char :=
  "set transfer ".data ++ mode.value

/-- Embedding of the `Camera.capture` command selection (src/core.py lines 338-348): the
command string handed to `_execute`, as chosen by the two tracking flags and
the optional `location` argument (`if location:` is Python truthiness, so
`None` and the empty string are both skipped). -/
def Camera.capture (inLiveViewMode AutoFocus : Bool)
    (location : Option (List Char)) : List Char :=
  let capturecmd := if AutoFocus then "Capture".data else "CaptureNoAf".data
  let command := if inLiveViewMode then "do LiveView_Capture".data else capturecmd
  match location with
  | none => command
  | some l => if l = [] then command else command ++ ' ' :: l

/-!  A trace model for the stateful operations.  `commands` records, in
order, every command string handed to `_execute` (one child-process
invocation each). -/

/-- The mutable client state: the `inLiveViewMode` tracking flag and the
trace of commands passed to `_execute`. -/
structure CamState where
  inLiveViewMode : Bool
  commands : List (List Char)

/-- Embedding of `Camera.focus` (src/core.py lines 327-336): in live view it executes
`do LiveView_Focus`; otherwise it only logs an error (the `raise` in the
source is commented out).  Returns the new state and the logged errors. -/
def Camera.focus (s : CamState) : CamState × List (List Char) :=
  if s.inLiveViewMode then
    ({ s with commands := s.commands ++ ["do LiveView_Focus".data] }, [])
  else
    (s, ["Error: Camera is not in live view mode. Cannot execute focus command.".data])

/-- Embedding of `Camera.startLiveView` (src/core.py lines 311-318): sets the tracking
flag, shows the live-view window, then minimizes all windows. -/
def Camera.startLiveView (s : CamState) : CamState :=
  { inLiveViewMode := true,
    commands := s.commands ++ ["do LiveViewWnd_Show".data, "do All_Minimize".data] }

/-- Embedding of `Camera.stopLiveView` (src/core.py lines 320-325): clears the tracking
flag and hides the live-view window. -/
def Camera.stopLiveView (s : CamState) : CamState :=
  { inLiveViewMode := false, commands := s.commands ++ ["do LiveViewWnd_Hide".data] }

/-- Embedding of `Camera.liveView` (src/core.py lines 400-409): the `@contextmanager`
bracket.  `body` maps the state after `startLiveView` to its final state plus
a flag saying whether it raised; `try/finally` runs `stopLiveView` either
way, and a raised exception keeps propagating. -/
def Camera.liveView (body : CamState → CamState × Bool) (s : CamState) :
    CamState × Bool :=
  let s1 := Camera.startLiveView s
  let r := body s1
  (Camera.stopLiveView r.1, r.2)

/-!  A statement-level model of the `except subprocess.CalledProcessError`
handler of `Camera._execute` (src/core.py lines 73-76), which reads
`logging.error(...)`; `return ""`; `raise`. -/

/-- The statements appearing in the handler. -/
inductive Stmt where
  | logError : List Char → Stmt
  | ret : List Char → Stmt
  | reraise : Stmt

/-- How a straight-line statement sequence can end. -/
inductive ExecOutcome where
  | fellThrough : ExecOutcome
  | returned : List Char → ExecOutcome
  | raised : ExecOutcome

/-- Run a straight-line statement sequence: `ret` and `reraise` end execution
at once, so no statement after them is ever reached. -/
def runStmts : List Stmt → List (List Char) → ExecOutcome × List (List Char)
  | [], logs => (.fellThrough, logs)
  | .logError m :: rest, logs => runStmts rest (logs ++ [m])
  | .ret v :: _, logs => (.returned v, logs)
  | .reraise :: _, logs => (.raised, logs)

/-- The body of the `except` handler of `Camera._execute`, verbatim from the
source: log the error, `return ""`, then an (intended) `raise`. -/
def exceptBlockBody (cmd e : List Char) : List Stmt :=
  [.logError ("Error executing command: ".data ++ cmd ++ ". Error: ".data ++ e),
   .ret [],
   .reraise]

/-- The raising body used to witness the live-view bracket claim: it appends
one command to the trace and then raises. -/
def captureBody : CamState → CamState × Bool :=
  fun t => ({ t with commands := t.commands ++ ["do Capture".data] }, true)

/-!  Lemmas about marker search on texts written as `a ++ sep ++ b`. -/

theorem occursIn_nil (sep : List Char) (hsep : sep ≠ []) : occursIn sep [] = false := by
  cases sep with
  | nil => exact absurd rfl hsep
  | cons c cs => rfl

theorem occursIn_cons (sep : List Char) (c : Char) (cs : List Char) :
    occursIn sep (c :: cs) = (sep.isPrefixOf (c :: cs) || occursIn sep cs) := by
  simp only [occursIn, afterFirst]
  cases h : sep.isPrefixOf (c :: cs) <;> simp [h, occursIn]

theorem occursIn_of_isPrefix {sep a : List Char} (hsep : sep ≠ []) (h : sep <+: a) :
    occursIn sep a = true := by
  cases a with
  | nil => exact absurd (List.prefix_nil.mp h) hsep
  | cons c cs =>
    have hb : sep.isPrefixOf (c :: cs) = true := List.isPrefixOf_iff_prefix.mpr h
    simp [occursIn_cons, hb]

theorem not_prefix_mid (sep a b : List Char) (hsep : sep ≠ [])
    (hov : selfOverlapFree sep) (hne : a ≠ []) (ha : occursIn sep a = false) :
    ¬ sep <+: (a ++ sep ++ b) := by
  intro hpre
  have heq : sep = List.take sep.length (a ++ sep ++ b) :=
    List.prefix_iff_eq_take.mp hpre
  rcases le_or_lt sep.length a.length with hle | hlt
  · have htake : sep = List.take sep.length a := by
      calc sep = List.take sep.length (a ++ sep ++ b) := heq
        _ = List.take sep.length (a ++ (sep ++ b)) := by rw [List.append_assoc]
        _ = List.take sep.length a
            ++ List.take (sep.length - a.length) (sep ++ b) := by
          rw [List.take_append_eq_append_take]
        _ = List.take sep.length a := by
          rw [Nat.sub_eq_zero_of_le hle, List.take_zero, List.append_nil]
    have hpa : sep <+: a := List.prefix_iff_eq_take.mpr htake
    rw [occursIn_of_isPrefix hsep hpa] at ha
    exact Bool.noConfusion ha
  · have h1 : sep = a ++ List.take (sep.length - a.length) sep := by
      calc sep = List.take sep.length (a ++ sep ++ b) := heq
        _ = List.take sep.length (a ++ (sep ++ b)) := by rw [List.append_assoc]
        _ = List.take sep.length a
            ++ List.take (sep.length - a.length) (sep ++ b) := by
          rw [List.take_append_eq_append_take]
        _ = a ++ List.take (sep.length - a.length) (sep ++ b) := by
          rw [List.take_of_length_le (Nat.le_of_lt hlt)]
        _ = a ++ (List.take (sep.length - a.length) sep
            ++ List.take (sep.length - a.length - sep.length) b) := by
          rw [List.take_append_eq_append_take]
        _ = a ++ List.take (sep.length - a.length) sep := by
          rw [Nat.sub_eq_zero_of_le (Nat.sub_le _ _), List.take_zero,
            List.append_nil]
    have h2 : a = List.take a.length sep := by
      have hc := congrArg (List.take a.length) h1
      rw [List.take_left] at hc
      exact hc.symm
    exact hov a.length hlt (List.length_pos.mpr hne) (by rw [← h2]; exact h1)

theorem afterFirst_append (sep b : List Char) (hsep : sep ≠ [])
    (hov : selfOverlapFree sep) :
    ∀ a, occursIn sep a = false → afterFirst sep (a ++ sep ++ b) = some b := by
  intro a
  induction a with
  | nil =>
    intro _
    obtain ⟨c, sep', rfl⟩ : ∃ c sep', sep = c :: sep' := by
      cases sep with
      | nil => exact absurd rfl hsep
      | cons c cs => exact ⟨c, cs, rfl⟩
    show afterFirst (c :: sep') (([] : List Char) ++ (c :: sep') ++ b) = some b
    have hpre : (c :: sep').isPrefixOf ((c :: sep') ++ b) = true :=
      List.isPrefixOf_iff_prefix.mpr ⟨b, rfl⟩
    simp only [List.nil_append, List.cons_append] at hpre ⊢
    simp [afterFirst, hpre]
  | cons c a' ih =>
    intro hocc
    have hnp : ¬ sep <+: ((c :: a') ++ sep ++ b) :=
      not_prefix_mid sep (c :: a') b hsep hov (List.cons_ne_nil c a') hocc
    have hpf : sep.isPrefixOf ((c :: a') ++ sep ++ b) = false := by
      cases hx : sep.isPrefixOf ((c :: a') ++ sep ++ b) with
      | false => rfl
      | true => exact absurd (List.isPrefixOf_iff_prefix.mp hx) hnp
    rw [occursIn_cons, Bool.or_eq_false_iff] at hocc
    simp only [List.cons_append] at hpf ⊢
    simp only [afterFirst]
    rw [hpf, if_neg Bool.false_ne_true]
    exact ih hocc.2

theorem upToFirst_of_not_occursIn (sep : List Char) :
    ∀ s, occursIn sep s = false → upToFirst sep s = s := by
  intro s
  induction s with
  | nil => intro _; rfl
  | cons c cs ih =>
    intro h
    rw [occursIn_cons, Bool.or_eq_false_iff] at h
    simp [upToFirst, h.1, ih h.2]

theorem splitIndex1_append (sep a b : List Char) (hsep : sep ≠ [])
    (hov : selfOverlapFree sep) (ha : occursIn sep a = false)
    (hb : occursIn sep b = false) :
    splitIndex1 sep (a ++ sep ++ b) = some b := by
  rw [splitIndex1, afterFirst_append sep b hsep hov a ha]
  simp [upToFirst_of_not_occursIn sep b hb]

theorem splitIndex1_exists_of_occursIn (sep s : List Char)
    (h : occursIn sep s = true) : ∃ t, splitIndex1 sep s = some t := by
  rw [occursIn] at h
  obtain ⟨r, hr⟩ := Option.isSome_iff_exists.mp h
  exact ⟨upToFirst sep r, by rw [splitIndex1, hr]; rfl⟩

theorem msgMarker_ne_nil : msgMarker ≠ [] := by decide

theorem respMarker_ne_nil : respMarker ≠ [] := by decide

theorem msgMarker_overlapFree : selfOverlapFree msgMarker := by
  unfold selfOverlapFree; decide

theorem respMarker_overlapFree : selfOverlapFree respMarker := by
  unfold selfOverlapFree; decide

/-!  Claims. -/

/-- Claim C1, counterexample: on the raw text `'error'` (which contains the
error marker but no `message:` segment) `_get` raises `IndexError` instead of
logging and returning absence; on `'error message:abc\r\ndef'` the logged
segment is everything after `message:` with CR/LF stripped from the ends only
(`abc\r\ndef`), not the segment up to the next line break (`abc`); and on a
text without either marker (`'junk'`) it raises instead of returning. -/
theorem C1_counterexample :
    Camera._get "error".data = .error "IndexError"
    ∧ Camera._get "error message:abc\r\ndef".data =
        .ok (none, ["Error executing get command: abc\r\ndef".data])
    ∧ Camera._get "junk".data = .error "IndexError" :=
  ⟨rfl, rfl, rfl⟩

/-- Claim C1, amended: for a raw text containing a unique `message:` marker,
if it also contains the error marker then `_get` logs everything after
`message:` stripped of surrounding CR/LF characters and returns absence; for
a text free of the error marker containing a unique `response:` marker it
returns the segment after `response:` trimmed of surrounding
quote/semicolon/line-break characters; on `'response:"1/125";\r\n'` it
returns `1/125`.  (Texts missing the relevant marker raise instead.) -/
theorem C1_amended :
    (∀ a b, occursIn errMarker (a ++ msgMarker ++ b) = true →
      occursIn msgMarker a = false → occursIn msgMarker b = false →
      Camera._get (a ++ msgMarker ++ b) =
        .ok (none, ["Error executing get command: ".data ++ stripChars crlfChars b]))
    ∧ (∀ a b, occursIn errMarker (a ++ respMarker ++ b) = false →
      occursIn respMarker a = false → occursIn respMarker b = false →
      Camera._get (a ++ respMarker ++ b) =
        .ok (some (stripChars quoteSemiCrlf b), []))
    ∧ Camera._get "response:\"1/125\";\r\n".data = .ok (some "1/125".data, []) := by
  refine ⟨?_, ?_, rfl⟩
  · intro a b herr ha hb
    have hs := splitIndex1_append msgMarker a b msgMarker_ne_nil
      msgMarker_overlapFree ha hb
    rw [List.append_assoc] at herr hs ⊢
    simp [Camera._get, herr, hs]
  · intro a b herr ha hb
    have hs := splitIndex1_append respMarker a b respMarker_ne_nil
      respMarker_overlapFree ha hb
    rw [List.append_assoc] at herr hs ⊢
    simp [Camera._get, herr, hs]

/-- Claim C1, witness: the amended theorem applied to the error response
`'error message:nope\r\n'`. -/
theorem C1_witness :
    Camera._get ("error ".data ++ msgMarker ++ "nope\r\n".data) =
      .ok (none, ["Error executing get command: nope".data]) :=
  C1_amended.1 "error ".data "nope\r\n".data (by decide) (by decide) (by decide)

/-- Claim C2, counterexample: on the raw text `'error'` (error marker present,
`message:` missing) `_list` raises `IndexError` instead of returning the
empty sequence. -/
theorem C2_counterexample : Camera._list "error".data = .error "IndexError" := rfl

/-- Claim C2, amended: for a raw text containing a unique `message:` marker,
if it also contains the error marker then `_list` returns the empty sequence
(logging the message); for a text free of the error marker containing a
unique `response:` marker it strips surrounding bracket/semicolon/line-break
characters, removes quotes and splits on commas, preserving order; on
`'response:["100","200","400"];\r\n'` it returns `["100","200","400"]`.
(Texts missing the relevant marker raise instead.) -/
theorem C2_amended :
    (∀ a b, occursIn errMarker (a ++ msgMarker ++ b) = true →
      occursIn msgMarker a = false → occursIn msgMarker b = false →
      Camera._list (a ++ msgMarker ++ b) =
        .ok ([], ["Error executing list command: ".data ++ stripChars crlfChars b]))
    ∧ (∀ a b, occursIn errMarker (a ++ respMarker ++ b) = false →
      occursIn respMarker a = false → occursIn respMarker b = false →
      Camera._list (a ++ respMarker ++ b) =
        .ok (splitChar ',' (removeChar '"' (stripChars bracketSemiCrlf b)), []))
    ∧ Camera._list "response:[\"100\",\"200\",\"400\"];\r\n".data =
        .ok (["100".data, "200".data, "400".data], []) := by
  refine ⟨?_, ?_, rfl⟩
  · intro a b herr ha hb
    have hs := splitIndex1_append msgMarker a b msgMarker_ne_nil
      msgMarker_overlapFree ha hb
    rw [List.append_assoc] at herr hs ⊢
    simp [Camera._list, herr, hs]
  · intro a b herr ha hb
    have hs := splitIndex1_append respMarker a b respMarker_ne_nil
      respMarker_overlapFree ha hb
    rw [List.append_assoc] at herr hs ⊢
    simp [Camera._list, herr, hs]

/-- Claim C2, witness: the amended theorem applied to the success response
`'ok:response:["a","b"];\r\n'`. -/
theorem C2_witness :
    Camera._list ("ok:".data ++ respMarker ++ "[\"a\",\"b\"];\r\n".data) =
      .ok (["a".data, "b".data], []) :=
  C2_amended.2.1 "ok:".data "[\"a\",\"b\"];\r\n".data (by decide) (by decide)
    (by decide)

/-- Claim C3, counterexample: the operations do raise.  On the empty raw text
(exactly what `_execute` returns after a process failure) `_get` raises
`IndexError`; `_set` raises on a text containing `error` without `message:`;
`_list` raises on a text missing the `response:` marker. -/
theorem C3_counterexample :
    Camera._get [] = .error "IndexError"
    ∧ Camera._set "an error happened\r\n".data = .error "IndexError"
    ∧ Camera._list "no markers here".data = .error "IndexError" :=
  ⟨rfl, rfl, rfl⟩

/-- Claim C3, amended: `_get`, `_set` and `_list` raise no exception on every
raw text that contains `message:` whenever it contains the error marker and
contains `response:` otherwise; an error marker is then surfaced only as an
absent (`None`) or empty result.  On texts missing the relevant marker the
operations raise `IndexError`. -/
theorem C3_amended : ∀ raw : List Char,
    (occursIn errMarker raw = true → occursIn msgMarker raw = true) →
    (occursIn errMarker raw = false → occursIn respMarker raw = true) →
    (∃ r, Camera._get raw = .ok r) ∧ (∃ r, Camera._set raw = .ok r)
      ∧ (∃ r, Camera._list raw = .ok r) := by
  intro raw h1 h2
  cases herr : occursIn errMarker raw with
  | true =>
    obtain ⟨t, ht⟩ := splitIndex1_exists_of_occursIn msgMarker raw (h1 herr)
    have hg : Camera._get raw =
        .ok (none, ["Error executing get command: ".data ++ stripChars crlfChars t]) := by
      simp [Camera._get, herr, ht]
    have hst : Camera._set raw =
        .ok (none, ["Error executing set command: ".data ++ stripChars crlfChars t]) := by
      simp [Camera._set, herr, ht]
    have hl : Camera._list raw =
        .ok ([], ["Error executing list command: ".data ++ stripChars crlfChars t]) := by
      simp [Camera._list, herr, ht]
    exact ⟨⟨_, hg⟩, ⟨_, hst⟩, ⟨_, hl⟩⟩
  | false =>
    obtain ⟨t, ht⟩ := splitIndex1_exists_of_occursIn respMarker raw (h2 herr)
    have hg : Camera._get raw = .ok (some (stripChars quoteSemiCrlf t), []) := by
      simp [Camera._get, herr, ht]
    have hst : Camera._set raw = .ok (some (stripChars quoteSemiCrlf t), []) := by
      simp [Camera._set, herr, ht]
    have hl : Camera._list raw =
        .ok (splitChar ',' (removeChar '"' (stripChars bracketSemiCrlf t)), []) := by
      simp [Camera._list, herr, ht]
    exact ⟨⟨_, hg⟩, ⟨_, hst⟩, ⟨_, hl⟩⟩

/-- Claim C3, witness: the amended theorem applied to `'response:x;\r\n'`. -/
theorem C3_witness :
    (∃ r, Camera._get "response:x;\r\n".data = .ok r)
    ∧ (∃ r, Camera._set "response:x;\r\n".data = .ok r)
    ∧ (∃ r, Camera._list "response:x;\r\n".data = .ok r) :=
  C3_amended "response:x;\r\n".data (by decide) (by decide)

/-- Claim C4: running the `except` handler of `_execute` logs the error and
returns the empty string; the `raise` statement standing after the `return`
is never reached, so every process-invocation failure yields the empty
string and no exception propagates. -/
theorem C4_execute_failure : ∀ cmd e : List Char,
    runStmts (exceptBlockBody cmd e) [] =
      (.returned [],
        ["Error executing command: ".data ++ cmd ++ ". Error: ".data ++ e])
    ∧ (runStmts (exceptBlockBody cmd e) []).1 ≠ ExecOutcome.raised := by
  intro cmd e
  exact ⟨rfl, fun h => ExecOutcome.noConfusion h⟩

/-- Claim C5, counterexample: on the entirely empty raw response (what
`_execute` returns on process-invocation failure) `startRecording` raises
`IndexError` rather than returning a success/failure Boolean. -/
theorem C5_counterexample : Camera.startRecording [] = .error "IndexError" := rfl

/-- Claim C5, amended: for every raw response containing a unique `response:`
marker, `startRecording` returns `True` exactly when the response body (the
segment after `response:` stripped of quote/semicolon/line-break characters)
is empty, and returns `False` with the non-empty body logged as the failure
message otherwise; a response missing the marker (such as the empty raw
response from a process failure) raises `IndexError` instead. -/
theorem C5_amended : ∀ a b,
    occursIn respMarker a = false → occursIn respMarker b = false →
    (stripChars quoteSemiCrlf b = [] →
      Camera.startRecording (a ++ respMarker ++ b) = .ok (true, []))
    ∧ (stripChars quoteSemiCrlf b ≠ [] →
      Camera.startRecording (a ++ respMarker ++ b) =
        .ok (false,
          ["Error starting video recording: ".data ++ stripChars quoteSemiCrlf b])) := by
  intro a b ha hb
  have hs := splitIndex1_append respMarker a b respMarker_ne_nil
    respMarker_overlapFree ha hb
  rw [List.append_assoc] at hs
  constructor
  · intro he
    rw [List.append_assoc]
    simp [Camera.startRecording, hs, he]
  · intro he
    rw [List.append_assoc]
    simp [Camera.startRecording, hs, he]

/-- Claim C5, witness: the amended theorem applied to the failure response
`'null;response:"fail";\r\n'`. -/
theorem C5_witness :
    Camera.startRecording ("null;".data ++ respMarker ++ "\"fail\";\r\n".data) =
      .ok (false, ["Error starting video recording: fail".data]) :=
  (C5_amended "null;".data "\"fail\";\r\n".data (by decide) (by decide)).2
    (by decide)

/-- Claim C6: `capture` issues `Capture` when live view is off and autofocus
is on, `CaptureNoAf` when live view is off and autofocus is off, and
`do LiveView_Capture` whenever live view is on, regardless of the autofocus
flag; a provided (non-empty) destination location is appended verbatim after
a separating space. -/
theorem C6_capture_selection :
    (∀ AutoFocus, Camera.capture true AutoFocus none = "do LiveView_Capture".data)
    ∧ Camera.capture false true none = "Capture".data
    ∧ Camera.capture false false none = "CaptureNoAf".data
    ∧ (∀ inLiveViewMode AutoFocus l, l ≠ [] →
      Camera.capture inLiveViewMode AutoFocus (some l) =
        Camera.capture inLiveViewMode AutoFocus none ++ ' ' :: l) := by
  refine ⟨fun af => by cases af <;> rfl, rfl, rfl, ?_⟩
  intro lv af l hl
  cases lv <;> cases af <;> simp [Camera.capture, hl]

/-- Claim C6, witness: the selection theorem applied with live view off,
autofocus on and the destination `D:/shots`. -/
theorem C6_witness :
    Camera.capture false true (some "D:/shots".data) =
      Camera.capture false true none ++ ' ' :: "D:/shots".data :=
  C6_capture_selection.2.2.2 false true "D:/shots".data (by decide)

/-- Claim C7: calling `focus` outside live view leaves the command trace
untouched (no process invocation), logs the precondition error and raises
nothing (the function is total); inside live view it issues exactly
`do LiveView_Focus` and logs nothing. -/
theorem C7_focus_precondition : ∀ s : CamState,
    (s.inLiveViewMode = false →
      Camera.focus s =
        (s, ["Error: Camera is not in live view mode. Cannot execute focus command.".data]))
    ∧ (s.inLiveViewMode = true →
      Camera.focus s =
        ({ s with commands := s.commands ++ ["do LiveView_Focus".data] }, [])) := by
  intro s
  constructor <;> intro h <;> simp [Camera.focus, h]

/-- Claim C7, witness: the precondition theorem applied to the initial state
(live view off, no commands issued). -/
theorem C7_witness :
    Camera.focus ⟨false, []⟩ =
      (⟨false, []⟩,
        ["Error: Camera is not in live view mode. Cannot execute focus command.".data]) :=
  (C7_focus_precondition ⟨false, []⟩).1 rfl

/-- Claim C8: `TransferMode` has exactly the three pairwise-distinct variants
PC, CAMERA and BOTH, and for each variant the write/read pair round-trips:
the setter sends the underscore form, and when the relay echoes that value
with underscores rendered as spaces, the getter's space-to-underscore
normalization recovers the same variant. -/
theorem C8_transfer_roundtrip :
    (∀ m : TransferMode, m = .PC ∨ m = .CAMERA ∨ m = .BOTH)
    ∧ (TransferMode.PC ≠ TransferMode.CAMERA
        ∧ TransferMode.PC ≠ TransferMode.BOTH
        ∧ TransferMode.CAMERA ≠ TransferMode.BOTH)
    ∧ (∀ m : TransferMode,
        Camera.TransferSet m = "set transfer ".data ++ m.value
        ∧ Camera.Transfer
            ("response:\"".data ++ replaceChar '_' ' ' m.value ++ "\";\r\n".data)
          = .ok m) := by
  refine ⟨fun m => ?_, ⟨by decide, by decide, by decide⟩, fun m => ?_⟩
  · cases m
    · exact Or.inl rfl
    · exact Or.inr (Or.inl rfl)
    · exact Or.inr (Or.inr rfl)
  · cases m <;> exact ⟨rfl, rfl⟩

/-- Claim C9: the `liveView` bracket starts live view on entry and, for every
body that only appends to the command trace, guarantees on every exit path —
normal return or exception — that the stop command `do LiveViewWnd_Hide` is
issued last and the `inLiveViewMode` flag ends up `false`, while a raised
exception still propagates. -/
theorem C9_liveView_bracket :
    ∀ (body : CamState → CamState × Bool) (s : CamState),
    (∀ t, ∃ extra, (body t).1.commands = t.commands ++ extra) →
    ((Camera.liveView body s).1.inLiveViewMode = false
      ∧ (Camera.liveView body s).2 = (body (Camera.startLiveView s)).2
      ∧ ∃ extra, (Camera.liveView body s).1.commands =
          s.commands ++ ["do LiveViewWnd_Show".data, "do All_Minimize".data]
            ++ extra ++ ["do LiveViewWnd_Hide".data]) := by
  intro body s hbody
  refine ⟨rfl, rfl, ?_⟩
  obtain ⟨extra, hx⟩ := hbody (Camera.startLiveView s)
  refine ⟨extra, ?_⟩
  show (Camera.stopLiveView (body (Camera.startLiveView s)).1).commands = _
  simp only [Camera.stopLiveView]
  rw [hx]
  simp only [Camera.startLiveView]

/-- Claim C9, witness: the bracket theorem applied to a body that issues one
capture command and then raises, started from the initial state. -/
theorem C9_witness :
    (Camera.liveView captureBody ⟨false, []⟩).1.inLiveViewMode = false
    ∧ (Camera.liveView captureBody ⟨false, []⟩).2 =
        (captureBody (Camera.startLiveView ⟨false, []⟩)).2
    ∧ ∃ extra, (Camera.liveView captureBody ⟨false, []⟩).1.commands =
        ([] : List (List Char))
          ++ ["do LiveViewWnd_Show".data, "do All_Minimize".data]
          ++ extra ++ ["do LiveViewWnd_Hide".data] :=
  C9_liveView_bracket captureBody ⟨false, []⟩
    (fun _ => ⟨["do Capture".data], rfl⟩)

/-- Claim C10: whenever the underlying `_get` yields absence (as it does for
an error-marked `get transfer` response), reading the `Transfer` property
raises an exception — Python evaluates `None.replace(' ', '_')`, an
`AttributeError` — instead of returning absence. -/
theorem C10_transfer_absence_raises :
    ∀ (raw : List Char) (logs : List (List Char)),
    Camera._get raw = .ok (none, logs) →
    Camera.Transfer raw = .error "AttributeError" := by
  intro raw logs h
  simp [Camera.Transfer, h]

/-- Claim C10, witness: the theorem applied to the error response
`'error message:No such property\r\n'`. -/
theorem C10_witness :
    Camera.Transfer "error message:No such property\r\n".data =
      .error "AttributeError" :=
  C10_transfer_absence_raises "error message:No such property\r\n".data
    ["Error executing get command: No such property".data] rfl

end DigiCC
